import Mathlib

/-!
Shallow embedding of `homeassistant/components/amberelectric/sensor.py`
(class `AmberCurrentData`): the Amber Electric price fetcher and its
authentication handling.  JSON response bodies are modelled by an explicit
`Json` type; Python exceptions (`KeyError`, `ValueError`, `TypeError`) by
`PyErr`; each network response that a call consumes is passed in as an
argument.  Timestamps are modelled as seconds since the Unix epoch.
-/

namespace Amber

/-- A JSON value, as returned by `result.json()` in the source. -/
inductive Json where
| str : String → Json
| num : Int → Json
| obj : List (String × Json) → Json
| arr : List Json → Json
| null : Json
| bool : Bool → Json

/-- The Python exceptions that the source can raise or catch:
`except (KeyError, ValueError)` catches the first two; `TypeError`
(subscripting a non-dict) is never caught by the source. -/
inductive PyErr where
| keyError : String → PyErr
| valueError : PyErr
| typeError : PyErr
deriving DecidableEq

/-- Outcome of `result.json()`: either a JSON value, or `invalid` when the
body is not JSON (Python raises `ValueError`). -/
inductive HttpJson where
| invalid : HttpJson
| ok : Json → HttpJson

/-- First binding of a key in an association list (Python dict lookup). -/
def lookupKey : List (String × Json) → String → Option Json
| [], _ => none
| (k, v) :: rest, key => if k == key then some v else lookupKey rest key

/-- Python subscription `j[key]`: on a dict, a lookup that raises `KeyError`
when the key is missing; on any non-dict JSON value it raises `TypeError`. -/
def jsonGet (j : Json) (key : String) : Except PyErr Json :=
  match j with
  | Json.obj fields =>
      match lookupKey fields key with
      | some v => Except.ok v
      | none => Except.error (PyErr.keyError key)
  | _ => Except.error PyErr.typeError

/-- Python `==` between a JSON value and a string literal: true exactly when
the value is that string (any non-string compares unequal). -/
def pyEqStr (j : Json) (s : String) : Bool :=
  match j with
  | Json.str t => t == s
  | _ => false

/-- Python truthiness of a JSON value (`if self._data:`). -/
def jsonTruthy (j : Json) : Bool :=
  match j with
  | Json.str t => ¬ t.isEmpty
  | Json.num n => n != 0
  | Json.obj fields => ¬ fields.isEmpty
  | Json.arr xs => ¬ xs.isEmpty
  | Json.null => false
  | Json.bool b => b

mutual

/-- Python `repr` of a JSON value (what `str()` falls back to for
non-string values). -/
def pyRepr : Json → String
| Json.str s => "\x27" ++ s ++ "\x27"
| Json.num n => toString n
| Json.obj fields => "\x7b" ++ pyReprFields fields ++ "\x7d"
| Json.arr xs => "[" ++ pyReprArr xs ++ "]"
| Json.null => "None"
| Json.bool b => if b then "True" else "False"

/-- `repr` of the field list of a JSON object. -/
def pyReprFields : List (String × Json) → String
| [] => ""
| [(k, v)] => "\x27" ++ k ++ "\x27: " ++ pyRepr v
| (k, v) :: rest => "\x27" ++ k ++ "\x27: " ++ pyRepr v ++ ", " ++ pyReprFields rest

/-- `repr` of the element list of a JSON array. -/
def pyReprArr : List Json → String
| [] => ""
| [v] => pyRepr v
| v :: rest => pyRepr v ++ ", " ++ pyReprArr rest

end

/-- Python `str()` of a JSON value: a string is itself, anything else is its
`repr`. -/
def pyStr (j : Json) : String :=
  match j with
  | Json.str s => s
  | _ => pyRepr j

/-! ### `datetime.datetime.strptime(_, "%Y-%m-%dT%H:%M:%SZ")` -/

/-- Value of a decimal digit character, if it is one. -/
def digitVal (c : Char) : Option Nat :=
  if c.isDigit then some (c.toNat - 48) else none

/-- Match a literal character at the head of the input. -/
def pLit (c : Char) : List Char → Option (List Char)
| x :: rest => if x == c then some rest else none
| [] => none

/-- `%Y`: exactly four digits. -/
def p4digits : List Char → Option (Nat × List Char)
| a :: b :: c :: d :: rest =>
    match digitVal a, digitVal b, digitVal c, digitVal d with
    | some x, some y, some z, some w => some (1000 * x + 100 * y + 10 * z + w, rest)
    | _, _, _, _ => none
| _ => none

/-- A two-digit-or-one-digit numeric field, as in the CPython strptime
regexes (ordered alternation: the two-digit form, restricted to `valid2`,
is preferred; otherwise a single digit restricted to `valid1`). -/
def parse2or1 (valid2 valid1 : Nat → Bool) : List Char → Option (Nat × List Char)
| c1 :: c2 :: rest =>
    match digitVal c1, digitVal c2 with
    | some d1, some d2 =>
        let v := 10 * d1 + d2
        if valid2 v then some (v, rest)
        else if valid1 d1 then some (d1, c2 :: rest) else none
    | some d1, none => if valid1 d1 then some (d1, c2 :: rest) else none
    | none, _ => none
| [c1] =>
    match digitVal c1 with
    | some d1 => if valid1 d1 then some (d1, []) else none
    | none => none
| [] => none

/-- Gregorian leap-year rule. -/
def isLeapYear (y : Nat) : Bool :=
  (y % 4 == 0 && y % 100 != 0) || y % 400 == 0

/-- Number of days in a month. -/
def daysInMonth (y mo : Nat) : Nat :=
  if mo = 2 then (if isLeapYear y then 29 else 28)
  else if mo = 4 ∨ mo = 6 ∨ mo = 9 ∨ mo = 11 then 30
  else 31

/-- The range checks done by the `datetime.datetime` constructor (CPython
rejects a day beyond the month length and a second beyond 59, even though
the strptime regex itself admits 60 and 61). -/
def datetime_valid (y mo d h mi sec : Nat) : Bool :=
  decide (1 ≤ y ∧ 1 ≤ mo ∧ mo ≤ 12 ∧ 1 ≤ d ∧ d ≤ daysInMonth y mo ∧
          h ≤ 23 ∧ mi ≤ 59 ∧ sec ≤ 59)

/-- Days between 1970-01-01 and the given civil date (proleptic Gregorian),
for dates with year at least 1. -/
def days_from_civil (y mo d : Nat) : Int :=
  let y2 := if mo ≤ 2 then y - 1 else y
  let era := y2 / 400
  let yoe := y2 - era * 400
  let doy := (153 * (if 2 < mo then mo - 3 else mo + 9) + 2) / 5 + d - 1
  let doe := yoe * 365 + yoe / 4 - yoe / 100 + doy
  (era * 146097 + doe : Int) - 719468

/-- Seconds since the Unix epoch of a civil date-time taken as UTC. -/
def toEpochSeconds (y mo d h mi sec : Nat) : Int :=
  days_from_civil y mo d * 86400 + (h * 3600 + mi * 60 + sec : Nat)

/-- `datetime.datetime.strptime(s, "%Y-%m-%dT%H:%M:%SZ")`, returning the
parsed instant as epoch seconds, or `none` where CPython raises
`ValueError` (no match, trailing input, or constructor range check). -/
def strptime_price_period (s : String) : Option Int := do
  let cs := s.toList
  let (y, cs) ← p4digits cs
  let cs ← pLit '-' cs
  let (mo, cs) ← parse2or1 (fun v => decide (1 ≤ v ∧ v ≤ 12)) (fun v => decide (1 ≤ v)) cs
  let cs ← pLit '-' cs
  let (d, cs) ← parse2or1 (fun v => decide (1 ≤ v ∧ v ≤ 31)) (fun v => decide (1 ≤ v)) cs
  let cs ← pLit 'T' cs
  let (h, cs) ← parse2or1 (fun v => decide (v ≤ 23)) (fun _ => true) cs
  let cs ← pLit ':' cs
  let (mi, cs) ← parse2or1 (fun v => decide (v ≤ 59)) (fun _ => true) cs
  let cs ← pLit ':' cs
  let (sec, cs) ← parse2or1 (fun v => decide (v ≤ 61)) (fun _ => true) cs
  let cs ← pLit 'Z' cs
  if cs.isEmpty && datetime_valid y mo d h mi sec then
    some (toEpochSeconds y mo d h mi sec)
  else none

/-- Modelled from the spec: `homeassistant.util.dt.as_utc` is code of this
repository that is not under `src/` (only its caller is).  The spec states
that the parsed wire timestamp is "interpreted as UTC", so on the naive
datetime produced by `strptime` it denotes the same instant, i.e. the
identity on the epoch-seconds representation. -/
def as_utc (t : Int) : Int := t

/-! ### The `AmberCurrentData` state -/

/-- The mutable attributes of class `AmberCurrentData`. -/
structure AmberCurrentData where
  _username : Option String
  _password : String
  _id_token : Option Json
  _refresh_token : Option Json
  _data : Option Json
  last_updated : Option Int

/-- `AmberCurrentData.__init__(username, password)`. -/
def init (username password : String) : AmberCurrentData :=
  { _username := some username, _password := password,
    _id_token := none, _refresh_token := none,
    _data := none, last_updated := none }

/-- Property `latest_data`: the stored data when truthy, else `None`. -/
def latest_data (s : AmberCurrentData) : Option Json :=
  match s._data with
  | some d => if jsonTruthy d then some d else none
  | none => none

/-- Result of a call to `_authorize`: the new state, whether the sign-in
request was actually issued, and the exception propagating out (if any). -/
structure AuthResult where
  state : AmberCurrentData
  requested : Bool
  err : Option PyErr

/-- The `except (KeyError, ValueError)` clause of `_authorize`: those two
set `self._data = None` and re-raise; a `TypeError` propagates uncaught,
leaving the state as it was at the point of the raise. -/
def authExcept (s : AmberCurrentData) (e : PyErr) : AuthResult :=
  match e with
  | PyErr.typeError => { state := s, requested := true, err := some PyErr.typeError }
  | e => { state := { s with _data := none }, requested := true, err := some e }

/-- `AmberCurrentData._authorize`, with the sign-in response body passed in
as `resp`. -/
def _authorize (s : AmberCurrentData) (resp : HttpJson) : AuthResult :=
  if s._username.isNone then
    { state := s, requested := false, err := none }
  else
    match resp with
    | HttpJson.invalid =>
        { state := { s with _data := none }, requested := true,
          err := some PyErr.valueError }
    | HttpJson.ok result_json =>
        match jsonGet result_json "message" with
        | Except.error e => authExcept s e
        | Except.ok msg =>
            if ¬ pyEqStr msg "Authentication successfully." then
              { state := { s with _id_token := none, _username := none },
                requested := true, err := none }
            else
              match jsonGet result_json "data" with
              | Except.error e => authExcept s e
              | Except.ok tokens =>
                  match jsonGet tokens "idToken" with
                  | Except.error e => authExcept s e
                  | Except.ok idTok =>
                      match jsonGet tokens "refreshToken" with
                      | Except.error e => authExcept { s with _id_token := some idTok } e
                      | Except.ok rTok =>
                          { state := { s with _id_token := some idTok,
                                              _refresh_token := some rTok },
                            requested := true, err := none }

/-- `AmberCurrentData.should_update`, with the value of
`dt_util.utcnow()` passed in as `now` (epoch seconds). -/
def should_update (s : AmberCurrentData) (now : Int) : Bool :=
  match s.last_updated with
  | none => true
  | some t => decide (t + 35 * 60 < now)

/-- Result of a call to `update`: the new state, the exception propagating
out (if any), and which of the two network requests were issued. -/
structure UpdateResult where
  state : AmberCurrentData
  err : Option PyErr
  signin_requested : Bool
  price_requested : Bool

/-- The `except (KeyError, ValueError)` clause of `update`: those two set
`self._data = None` and re-raise; a `TypeError` propagates uncaught. -/
def priceExcept (s : AmberCurrentData) (sc : Bool) (e : PyErr) : UpdateResult :=
  match e with
  | PyErr.typeError =>
      { state := s, err := some PyErr.typeError,
        signin_requested := sc, price_requested := true }
  | e =>
      { state := { s with _data := none }, err := some e,
        signin_requested := sc, price_requested := true }

/-- `AmberCurrentData.update` (the body wrapped by the external throttle),
with the clock value and the two possible response bodies passed in. -/
def update (s : AmberCurrentData) (now : Int) (signin price : HttpJson) :
    UpdateResult :=
  if ¬ should_update s now then
    { state := s, err := none, signin_requested := false, price_requested := false }
  else
    let ar := if s._id_token.isNone then _authorize s signin
              else { state := s, requested := false, err := none }
    match ar.err with
    | some e =>
        { state := ar.state, err := some e,
          signin_requested := ar.requested, price_requested := false }
    | none =>
        let s1 := ar.state
        if s1._id_token.isNone then
          { state := s1, err := none,
            signin_requested := ar.requested, price_requested := false }
        else
          match price with
          | HttpJson.invalid =>
              { state := { s1 with _data := none }, err := some PyErr.valueError,
                signin_requested := ar.requested, price_requested := true }
          | HttpJson.ok result_json =>
              if pyEqStr result_json "Token is not valid" then
                { state := { s1 with _id_token := none }, err := none,
                  signin_requested := ar.requested, price_requested := true }
              else
                match jsonGet result_json "data" with
                | Except.error e => priceExcept s1 ar.requested e
                | Except.ok d =>
                    let s2 := { s1 with _data := some d }
                    match jsonGet d "currentPricePeriod" with
                    | Except.error e => priceExcept s2 ar.requested e
                    | Except.ok per =>
                        match strptime_price_period (pyStr per) with
                        | none =>
                            { state := { s2 with _data := none },
                              err := some PyErr.valueError,
                              signin_requested := ar.requested,
                              price_requested := true }
                        | some t =>
                            { state := { s2 with last_updated := some (as_utc t) },
                              err := none,
                              signin_requested := ar.requested,
                              price_requested := true }

/-! ### Concrete fixtures used by witnesses and counterexamples -/

/-- A price reading as stored in `_data`. -/
def exReading : Json := Json.obj [("currentPriceKWH", Json.num 27)]

/-- The `data` field of a well-formed price payload. -/
def exPriceData : Json :=
  Json.obj [("currentPriceKWH", Json.num 27),
            ("currentPricePeriod", Json.str "2019-11-27T19:30:00Z")]

/-- A well-formed price payload. -/
def exPricePayload : Json := Json.obj [("data", exPriceData)]

/-- Token pair of a successful sign-in body. -/
def exTokens : Json :=
  Json.obj [("idToken", Json.str "token"), ("refreshToken", Json.str "refresh")]

/-- A successful sign-in body. -/
def signinOkJson : Json :=
  Json.obj [("message", Json.str "Authentication successfully."), ("data", exTokens)]

/-- A successful sign-in response. -/
def signinOkBody : HttpJson := HttpJson.ok signinOkJson

/-- A rejected sign-in body. -/
def signinRejectJson : Json :=
  Json.obj [("message", Json.str "Username or password is incorrect.")]

/-- A rejected sign-in response. -/
def signinRejectBody : HttpJson := HttpJson.ok signinRejectJson

/-- A state holding both tokens but no data yet, never updated. -/
def exReady : AmberCurrentData :=
  { _username := some "user", _password := "pass",
    _id_token := some (Json.str "token"),
    _refresh_token := some (Json.str "refresh"),
    _data := none, last_updated := none }

/-- A state holding both tokens, stored data, and a recorded period (0). -/
def exStocked : AmberCurrentData :=
  { _username := some "user", _password := "pass",
    _id_token := some (Json.str "token"),
    _refresh_token := some (Json.str "refresh"),
    _data := some exReading, last_updated := some 0 }

/-- A state with stored data and a username but no tokens, never updated. -/
def exNeedsAuth : AmberCurrentData :=
  { _username := some "user", _password := "pass",
    _id_token := none, _refresh_token := none,
    _data := some exReading, last_updated := none }

example : strptime_price_period "2019-11-27T19:30:00Z" = some 1574883000 := rfl

example : strptime_price_period "2019-11-27T99:99:00Z" = none := rfl

/-! ### Claims -/

/-- C5: `should_update` is true on every fresh instance (no `last_updated`)
regardless of `now`; and on a state whose `last_updated` holds a period `p`
(as after a successful fetch whose payload reported period `p`),
`should_update now` is false for every `now` at most 35 minutes past `p`
and true for every `now` strictly more than 35 minutes past `p`. -/
theorem C5_should_refresh (s0 s : AmberCurrentData) (now p : Int)
    (h0 : s0.last_updated = none) (h : s.last_updated = some p) :
    should_update s0 now = true ∧
    (now ≤ p + 35 * 60 → should_update s now = false) ∧
    (p + 35 * 60 < now → should_update s now = true) := by
  refine ⟨by simp [should_update, h0], ?_, ?_⟩
  · intro hle
    simp only [should_update, h, decide_eq_false_iff_not]
    omega
  · intro hlt
    simp only [should_update, h, decide_eq_true_eq]
    omega

/-- Witness for C5 at a fresh state, a stocked state with period 0, and
time 0. -/
theorem C5_should_refresh_witness :
    should_update (init "user" "pass") 0 = true ∧
    ((0 : Int) ≤ 0 + 35 * 60 → should_update exStocked 0 = false) ∧
    ((0 : Int) + 35 * 60 < 0 → should_update exStocked 0 = true) :=
  C5_should_refresh (init "user" "pass") exStocked 0 0 rfl rfl

/-- C6: a due refresh with a token present, whose price response is
structured with a `data` field whose `currentPricePeriod` parses under the
fixed wire format, stores that `data` field as the reading and sets
`last_updated` to the parsed period taken as UTC; the result never depends
on the wall-clock argument `now`. -/
theorem C6_success_sets_last_updated (s : AmberCurrentData) (now : Int)
    (signin : HttpJson) (tok rj d per : Json) (t : Int)
    (hdue : should_update s now = true)
    (htok : s._id_token = some tok)
    (hnot : pyEqStr rj "Token is not valid" = false)
    (hdata : jsonGet rj "data" = Except.ok d)
    (hper : jsonGet d "currentPricePeriod" = Except.ok per)
    (hts : strptime_price_period (pyStr per) = some t) :
    update s now signin (HttpJson.ok rj) =
      { state := { s with _data := some d, last_updated := some (as_utc t) },
        err := none, signin_requested := false, price_requested := true } := by
  simp [update, hdue, htok, hnot, hdata, hper, hts]

/-- Witness for C6 on the fixture payload with period
2019-11-27T19:30:00Z, i.e. epoch second 1574883000. -/
theorem C6_success_witness :
    update exReady 0 HttpJson.invalid (HttpJson.ok exPricePayload) =
      { state := { exReady with _data := some exPriceData,
                                last_updated := some (as_utc 1574883000) },
        err := none, signin_requested := false, price_requested := true } :=
  C6_success_sets_last_updated exReady 0 HttpJson.invalid (Json.str "token")
    exPricePayload exPriceData (Json.str "2019-11-27T19:30:00Z") 1574883000
    rfl rfl rfl rfl rfl rfl

/-- C7: a due refresh with a token present, whose price response is
structured but malformed (its object misses the `data` key, or the `data`
object misses `currentPricePeriod`, or that field does not parse as a
timestamp), clears the stored reading and propagates an error to the
caller. -/
theorem C7_malformed_price_raises (s : AmberCurrentData) (now : Int)
    (signin : HttpJson) (tok rj : Json)
    (hdue : should_update s now = true)
    (htok : s._id_token = some tok)
    (hnot : pyEqStr rj "Token is not valid" = false)
    (hmal : (∃ fields, rj = Json.obj fields ∧ lookupKey fields "data" = none) ∨
            (∃ d fields, jsonGet rj "data" = Except.ok d ∧ d = Json.obj fields ∧
              lookupKey fields "currentPricePeriod" = none) ∨
            (∃ d per, jsonGet rj "data" = Except.ok d ∧
              jsonGet d "currentPricePeriod" = Except.ok per ∧
              strptime_price_period (pyStr per) = none)) :
    (update s now signin (HttpJson.ok rj)).state._data = none ∧
    (update s now signin (HttpJson.ok rj)).err ≠ none := by
  rcases hmal with ⟨fields, hrj, hlook⟩ | ⟨d, fields, hd, hdo, hlook⟩ |
    ⟨d, per, hd, hper, hts⟩
  · subst hrj
    simp [update, priceExcept, hdue, htok, hnot, jsonGet, hlook]
  · subst hdo
    simp only [update, hdue, htok, hnot, hd]
    simp [jsonGet, priceExcept, hlook, htok]
  · simp [update, priceExcept, hdue, htok, hnot, hd, hper, hts]

/-- Witness for C7 on a price body that is an object with no `data` key. -/
theorem C7_malformed_price_witness :
    (update exReady 0 HttpJson.invalid (HttpJson.ok (Json.obj []))).state._data = none ∧
    (update exReady 0 HttpJson.invalid (HttpJson.ok (Json.obj []))).err ≠ none :=
  C7_malformed_price_raises exReady 0 HttpJson.invalid (Json.str "token")
    (Json.obj []) rfl rfl rfl (Or.inl ⟨[], rfl, rfl⟩)

/-- C9: whenever `should_update` is false, `update` returns at once: no
request of either kind is issued, no error is raised, and the state
(including tokens, reading and `last_updated`) is returned unchanged. -/
theorem C9_not_due_noop (s : AmberCurrentData) (now : Int)
    (signin price : HttpJson)
    (h : should_update s now = false) :
    update s now signin price =
      { state := s, err := none,
        signin_requested := false, price_requested := false } := by
  simp [update, h]

/-- Witness for C9: the stocked state at time 0 is not due. -/
theorem C9_not_due_noop_witness :
    update exStocked 0 HttpJson.invalid HttpJson.invalid =
      { state := exStocked, err := none,
        signin_requested := false, price_requested := false } :=
  C9_not_due_noop exStocked 0 HttpJson.invalid HttpJson.invalid rfl

/-- C10: a due refresh that fails with a parse error (caught `KeyError` or
`ValueError` on a malformed structured price payload) after a previous
successful fetch with recorded period `p` leaves the reading absent
(`latest_data` reads unknown) while `last_updated` keeps the old period;
hence every further refresh at a time at most 35 minutes past `p` is a
no-op that fetches nothing while the sensor stays unknown. -/
theorem C10_parse_failure_stale_gate (s : AmberCurrentData) (now p : Int)
    (signin : HttpJson) (tok rj : Json)
    (hprev : s.last_updated = some p)
    (hdue : should_update s now = true)
    (htok : s._id_token = some tok)
    (hnot : pyEqStr rj "Token is not valid" = false)
    (hmal : (∃ fields, rj = Json.obj fields ∧ lookupKey fields "data" = none) ∨
            (∃ d fields, jsonGet rj "data" = Except.ok d ∧ d = Json.obj fields ∧
              lookupKey fields "currentPricePeriod" = none) ∨
            (∃ d per, jsonGet rj "data" = Except.ok d ∧
              jsonGet d "currentPricePeriod" = Except.ok per ∧
              strptime_price_period (pyStr per) = none)) :
    (update s now signin (HttpJson.ok rj)).err ≠ none ∧
    (update s now signin (HttpJson.ok rj)).state._data = none ∧
    latest_data (update s now signin (HttpJson.ok rj)).state = none ∧
    (update s now signin (HttpJson.ok rj)).state.last_updated = some p ∧
    ∀ (now2 : Int) (sp2 pp2 : HttpJson), now2 ≤ p + 35 * 60 →
      update (update s now signin (HttpJson.ok rj)).state now2 sp2 pp2 =
        { state := (update s now signin (HttpJson.ok rj)).state, err := none,
          signin_requested := false, price_requested := false } := by
  have hst : (update s now signin (HttpJson.ok rj)).state = { s with _data := none } ∧
      (update s now signin (HttpJson.ok rj)).err ≠ none := by
    rcases hmal with ⟨fields, hrj, hlook⟩ | ⟨d, fields, hd, hdo, hlook⟩ |
      ⟨d, per, hd, hper, hts⟩
    · subst hrj
      simp [update, priceExcept, hdue, htok, hnot, jsonGet, hlook]
    · subst hdo
      simp only [update, hdue, htok, hnot, hd]
      simp [jsonGet, priceExcept, hlook, htok]
    · simp [update, priceExcept, hdue, htok, hnot, hd, hper, hts]
  obtain ⟨hst, herr⟩ := hst
  refine ⟨herr, by rw [hst], by rw [hst]; simp [latest_data], by rw [hst]; exact hprev, ?_⟩
  intro now2 sp2 pp2 h2
  have hsu : should_update (update s now signin (HttpJson.ok rj)).state now2 = false := by
    rw [hst]
    simp only [should_update, hprev, decide_eq_false_iff_not]
    omega
  rw [hst] at hsu ⊢
  simp [update, hsu]

/-- Witness for C10: stocked state with period 0, refresh at second 3000
(due), price payload whose `data` object misses `currentPricePeriod`. -/
theorem C10_parse_failure_stale_gate_witness :
    (update exStocked 3000 HttpJson.invalid
        (HttpJson.ok (Json.obj [("data", Json.obj [])]))).err ≠ none ∧
    (update exStocked 3000 HttpJson.invalid
        (HttpJson.ok (Json.obj [("data", Json.obj [])]))).state._data = none ∧
    latest_data (update exStocked 3000 HttpJson.invalid
        (HttpJson.ok (Json.obj [("data", Json.obj [])]))).state = none ∧
    (update exStocked 3000 HttpJson.invalid
        (HttpJson.ok (Json.obj [("data", Json.obj [])]))).state.last_updated = some 0 ∧
    ∀ (now2 : Int) (sp2 pp2 : HttpJson), now2 ≤ 0 + 35 * 60 →
      update (update exStocked 3000 HttpJson.invalid
          (HttpJson.ok (Json.obj [("data", Json.obj [])]))).state now2 sp2 pp2 =
        { state := (update exStocked 3000 HttpJson.invalid
              (HttpJson.ok (Json.obj [("data", Json.obj [])]))).state, err := none,
          signin_requested := false, price_requested := false } :=
  C10_parse_failure_stale_gate exStocked 3000 0 HttpJson.invalid (Json.str "token")
    (Json.obj [("data", Json.obj [])]) rfl rfl rfl rfl
    (Or.inr (Or.inl ⟨Json.obj [], [], rfl, rfl, rfl⟩))

/-- C1 counterexample: in the stocked state (reading held, both tokens
present, period 0), a due refresh at second 3000 answered with the literal
body "Token is not valid" leaves the stored reading and the refresh token
in place, contradicting the claim that `latest_reading` is set to absent
and the credentials are cleared. -/
theorem C1_counterexample :
    (update exStocked 3000 HttpJson.invalid
        (HttpJson.ok (Json.str "Token is not valid"))).state._data = some exReading ∧
    (update exStocked 3000 HttpJson.invalid
        (HttpJson.ok (Json.str "Token is not valid"))).state._refresh_token
      = some (Json.str "refresh") := ⟨rfl, rfl⟩

/-- C1 (amended): a due refresh in a state with credentials present and a
reading held, answered with the literal body "Token is not valid", clears
only the access token; the refresh token and the stored reading are left
unchanged, and the call returns normally after the single price request,
without retrying the fetch. -/
theorem C1_amended_token_invalid (s : AmberCurrentData) (now : Int)
    (signin : HttpJson) (tok : Json)
    (hdue : should_update s now = true)
    (htok : s._id_token = some tok)
    (hrt : s._refresh_token.isSome)
    (hdata : s._data.isSome) :
    update s now signin (HttpJson.ok (Json.str "Token is not valid")) =
      { state := { s with _id_token := none }, err := none,
        signin_requested := false, price_requested := true } := by
  simp [update, hdue, htok, pyEqStr]

/-- Witness for C1 (amended) at the stocked state and second 3000. -/
theorem C1_amended_token_invalid_witness :
    update exStocked 3000 HttpJson.invalid (HttpJson.ok (Json.str "Token is not valid")) =
      { state := { exStocked with _id_token := none }, err := none,
        signin_requested := false, price_requested := true } :=
  C1_amended_token_invalid exStocked 3000 HttpJson.invalid (Json.str "token")
    rfl rfl rfl rfl

/-- C2 counterexample: starting from a fresh client, one refresh whose
sign-in succeeds and whose price request is answered with the literal body
"Token is not valid" reaches a state where the access token is absent but
the refresh token is present, contradicting the both-or-neither
invariant. -/
theorem C2_counterexample :
    (update (init "user" "pass") 0 signinOkBody
        (HttpJson.ok (Json.str "Token is not valid"))).state._id_token = none ∧
    (update (init "user" "pass") 0 signinOkBody
        (HttpJson.ok (Json.str "Token is not valid"))).state._refresh_token
      = some (Json.str "refresh") := ⟨rfl, rfl⟩

/-- C2 (amended): a fresh client holds neither token, and a successful
sign-in populates both; but a "Token is not valid" price response clears
only the access token and leaves the refresh token exactly as it was, so
the both-or-neither invariant can be broken by a token invalidation that
follows a successful sign-in. -/
theorem C2_amended_token_lifecycle (u pw u2 : String) (s s2 : AmberCurrentData)
    (now : Int) (sp : HttpJson) (rj tokens idTok rTok tok : Json)
    (huser : s._username = some u2)
    (hmsg : jsonGet rj "message" = Except.ok (Json.str "Authentication successfully."))
    (hdata : jsonGet rj "data" = Except.ok tokens)
    (hid : jsonGet tokens "idToken" = Except.ok idTok)
    (hrt : jsonGet tokens "refreshToken" = Except.ok rTok)
    (hdue : should_update s2 now = true)
    (htok : s2._id_token = some tok) :
    ((init u pw)._id_token = none ∧ (init u pw)._refresh_token = none) ∧
    ((_authorize s (HttpJson.ok rj)).state._id_token = some idTok ∧
     (_authorize s (HttpJson.ok rj)).state._refresh_token = some rTok ∧
     (_authorize s (HttpJson.ok rj)).err = none) ∧
    ((update s2 now sp (HttpJson.ok (Json.str "Token is not valid"))).state._id_token
        = none ∧
     (update s2 now sp (HttpJson.ok (Json.str "Token is not valid"))).state._refresh_token
        = s2._refresh_token) := by
  refine ⟨⟨rfl, rfl⟩, ?_, ?_⟩
  · simp [_authorize, huser, hmsg, hdata, hid, hrt, pyEqStr]
  · simp [update, hdue, htok, pyEqStr]

/-- Witness for C2 (amended) on the sign-in fixture body and the stocked
state at second 3000. -/
theorem C2_amended_token_lifecycle_witness :
    ((init "user" "pass")._id_token = none ∧ (init "user" "pass")._refresh_token = none) ∧
    ((_authorize exNeedsAuth (HttpJson.ok signinOkJson)).state._id_token
        = some (Json.str "token") ∧
     (_authorize exNeedsAuth (HttpJson.ok signinOkJson)).state._refresh_token
        = some (Json.str "refresh") ∧
     (_authorize exNeedsAuth (HttpJson.ok signinOkJson)).err = none) ∧
    ((update exStocked 3000 HttpJson.invalid
        (HttpJson.ok (Json.str "Token is not valid"))).state._id_token = none ∧
     (update exStocked 3000 HttpJson.invalid
        (HttpJson.ok (Json.str "Token is not valid"))).state._refresh_token
        = exStocked._refresh_token) :=
  C2_amended_token_lifecycle "user" "pass" "user" exNeedsAuth exStocked 3000
    HttpJson.invalid signinOkJson exTokens (Json.str "token") (Json.str "refresh")
    (Json.str "token") rfl rfl rfl rfl rfl rfl rfl

/-- Case analysis on the except clause of `_authorize`: a caught `KeyError`
or `ValueError` leaves a state whose reading is cleared, while an uncaught
`TypeError` leaves the reading as it was. -/
theorem authExcept_outcomes (s : AmberCurrentData) (e : PyErr) :
    ((authExcept s e).err = some PyErr.typeError ∧
      (authExcept s e).state._data = s._data) ∨
    (∃ e2, (authExcept s e).err = some e2 ∧ e2 ≠ PyErr.typeError ∧
      (authExcept s e).state._data = none) := by
  cases e with
  | typeError => exact Or.inl ⟨rfl, rfl⟩
  | keyError k =>
      exact Or.inr ⟨PyErr.keyError k, rfl, by simp, rfl⟩
  | valueError =>
      exact Or.inr ⟨PyErr.valueError, rfl, by simp, rfl⟩

/-- Full case analysis of `_authorize` on an arbitrary sign-in response:
it either returns without error, or raises an uncaught `TypeError` with
the stored reading untouched, or raises a caught `KeyError`/`ValueError`
with the stored reading cleared. -/
theorem _authorize_outcomes (s : AmberCurrentData) (sp : HttpJson) :
    (_authorize s sp).err = none ∨
    ((_authorize s sp).err = some PyErr.typeError ∧
      (_authorize s sp).state._data = s._data) ∨
    (∃ e, (_authorize s sp).err = some e ∧ e ≠ PyErr.typeError ∧
      (_authorize s sp).state._data = none) := by
  cases hu : s._username with
  | none => exact Or.inl (by simp [_authorize, hu])
  | some u =>
    cases sp with
    | invalid =>
        exact Or.inr (Or.inr ⟨PyErr.valueError, by simp [_authorize, hu], by simp,
          by simp [_authorize, hu]⟩)
    | ok rj =>
      cases hm : jsonGet rj "message" with
      | error e =>
          have hred : _authorize s (HttpJson.ok rj) = authExcept s e := by
            simp [_authorize, hu, hm]
          rw [hred]
          exact Or.inr (authExcept_outcomes s e)
      | ok msg =>
        cases hmsg : pyEqStr msg "Authentication successfully." with
        | false => exact Or.inl (by simp [_authorize, hu, hm, hmsg])
        | true =>
          cases hd : jsonGet rj "data" with
          | error e =>
              have hred : _authorize s (HttpJson.ok rj) = authExcept s e := by
                simp [_authorize, hu, hm, hmsg, hd]
              rw [hred]
              exact Or.inr (authExcept_outcomes s e)
          | ok tokens =>
            cases hid : jsonGet tokens "idToken" with
            | error e =>
                have hred : _authorize s (HttpJson.ok rj) = authExcept s e := by
                  simp [_authorize, hu, hm, hmsg, hd, hid]
                rw [hred]
                exact Or.inr (authExcept_outcomes s e)
            | ok idTok =>
              cases hrt : jsonGet tokens "refreshToken" with
              | error e =>
                  have hred : _authorize s (HttpJson.ok rj) =
                      authExcept { s with _id_token := some idTok } e := by
                    simp [_authorize, hu, hm, hmsg, hd, hid, hrt]
                  rw [hred]
                  exact Or.inr (authExcept_outcomes { s with _id_token := some idTok } e)
              | ok rTok =>
                  exact Or.inl (by simp [_authorize, hu, hm, hmsg, hd, hid, hrt])

/-- C3 counterexample: in a due state that needs authentication and holds a
previous reading, a malformed (non-JSON) sign-in body clears the stored
reading, contradicting the claim that a failing authentication leaves
`latest_reading` untouched. -/
theorem C3_counterexample :
    exNeedsAuth._data = some exReading ∧
    (update exNeedsAuth 0 HttpJson.invalid
        (HttpJson.ok exPricePayload)).state._data = none := ⟨rfl, rfl⟩

/-- C3 (amended): when a due refresh authenticates, no failing sign-in
ever leads to a price request.  A rejection message leaves the reading
untouched and returns normally.  A malformed sign-in body propagates its
error to the caller: a caught `KeyError` or `ValueError` (body not JSON,
or a JSON object missing an expected key) clears the reading, while a
wrong-shape JSON body raises an uncaught `TypeError` with the reading
left untouched. -/
theorem C3_amended_auth_failure (s : AmberCurrentData) (now : Int) (u : String)
    (price : HttpJson)
    (hdue : should_update s now = true)
    (hnotok : s._id_token = none)
    (huser : s._username = some u) :
    (∀ rj msg, jsonGet rj "message" = Except.ok msg →
        pyEqStr msg "Authentication successfully." = false →
        update s now (HttpJson.ok rj) price =
          { state := { s with _id_token := none, _username := none }, err := none,
            signin_requested := true, price_requested := false }) ∧
    (∀ signin e, (_authorize s signin).err = some e → e ≠ PyErr.typeError →
        (update s now signin price).state._data = none ∧
        (update s now signin price).err = some e ∧
        (update s now signin price).price_requested = false) ∧
    (∀ signin, (_authorize s signin).err = some PyErr.typeError →
        (update s now signin price).state._data = s._data ∧
        (update s now signin price).err = some PyErr.typeError ∧
        (update s now signin price).price_requested = false) := by
  refine ⟨?_, ?_, ?_⟩
  · intro rj msg hmsg hrej
    simp [update, _authorize, hdue, hnotok, huser, hmsg, hrej]
  · intro signin e herr hne
    have hupd : update s now signin price =
        { state := (_authorize s signin).state, err := some e,
          signin_requested := (_authorize s signin).requested,
          price_requested := false } := by
      simp [update, hdue, hnotok, herr]
    rcases _authorize_outcomes s signin with h0 | ⟨h1, _⟩ | ⟨e2, h2, hne2, hdata2⟩
    · rw [h0] at herr
      exact absurd herr (by simp)
    · rw [h1] at herr
      exact absurd (Option.some.inj herr).symm hne
    · rw [h2] at herr
      have he := Option.some.inj herr
      subst he
      rw [hupd]
      exact ⟨hdata2, rfl, rfl⟩
  · intro signin herr
    have hupd : update s now signin price =
        { state := (_authorize s signin).state, err := some PyErr.typeError,
          signin_requested := (_authorize s signin).requested,
          price_requested := false } := by
      simp [update, hdue, hnotok, herr]
    rcases _authorize_outcomes s signin with h0 | ⟨h1, hdata1⟩ | ⟨e2, h2, hne2, hdata2⟩
    · rw [h0] at herr
      exact absurd herr (by simp)
    · rw [hupd]
      exact ⟨hdata1, rfl, rfl⟩
    · rw [h2] at herr
      exact absurd (Option.some.inj herr) hne2

/-- Witness for C3 (amended) at the needs-auth state and time 0. -/
theorem C3_amended_auth_failure_witness :
    (∀ rj msg, jsonGet rj "message" = Except.ok msg →
        pyEqStr msg "Authentication successfully." = false →
        update exNeedsAuth 0 (HttpJson.ok rj) (HttpJson.ok exPricePayload) =
          { state := { exNeedsAuth with _id_token := none, _username := none },
            err := none, signin_requested := true, price_requested := false }) ∧
    (∀ signin e, (_authorize exNeedsAuth signin).err = some e → e ≠ PyErr.typeError →
        (update exNeedsAuth 0 signin (HttpJson.ok exPricePayload)).state._data = none ∧
        (update exNeedsAuth 0 signin (HttpJson.ok exPricePayload)).err = some e ∧
        (update exNeedsAuth 0 signin (HttpJson.ok exPricePayload)).price_requested
            = false) ∧
    (∀ signin, (_authorize exNeedsAuth signin).err = some PyErr.typeError →
        (update exNeedsAuth 0 signin (HttpJson.ok exPricePayload)).state._data
            = exNeedsAuth._data ∧
        (update exNeedsAuth 0 signin (HttpJson.ok exPricePayload)).err
            = some PyErr.typeError ∧
        (update exNeedsAuth 0 signin (HttpJson.ok exPricePayload)).price_requested
            = false) :=
  C3_amended_auth_failure exNeedsAuth 0 "user" (HttpJson.ok exPricePayload)
    rfl rfl rfl

/-- C4 counterexample: after a refresh whose sign-in is rejected, the
username is wiped, and a subsequent refresh — even with a successful
sign-in response available — issues no sign-in request and changes
nothing, contradicting the claim that every subsequent refresh re-enters
authentication. -/
theorem C4_counterexample :
    (update (init "invaliduser" "pass") 0 signinRejectBody
        HttpJson.invalid).state._username = none ∧
    update (update (init "invaliduser" "pass") 0 signinRejectBody
        HttpJson.invalid).state 0 signinOkBody HttpJson.invalid =
      { state := (update (init "invaliduser" "pass") 0 signinRejectBody
            HttpJson.invalid).state, err := none,
        signin_requested := false, price_requested := false } := ⟨rfl, rfl⟩

/-- C4 (amended): after a sign-in rejection the client clears the access
token and also wipes the stored username, entering a terminal state:
every subsequent refresh, at any time and with any responses available,
returns immediately without issuing a sign-in request (or any request)
and leaves the state unchanged. -/
theorem C4_amended_rejection_terminal (s : AmberCurrentData) (now : Int)
    (u : String) (price : HttpJson) (rj msg : Json)
    (hdue : should_update s now = true)
    (hnotok : s._id_token = none)
    (huser : s._username = some u)
    (hmsg : jsonGet rj "message" = Except.ok msg)
    (hrej : pyEqStr msg "Authentication successfully." = false) :
    (update s now (HttpJson.ok rj) price).state._username = none ∧
    (update s now (HttpJson.ok rj) price).state._id_token = none ∧
    ∀ (now2 : Int) (sp2 pp2 : HttpJson),
      update (update s now (HttpJson.ok rj) price).state now2 sp2 pp2 =
        { state := (update s now (HttpJson.ok rj) price).state, err := none,
          signin_requested := false, price_requested := false } := by
  have hred : update s now (HttpJson.ok rj) price =
      { state := { s with _id_token := none, _username := none }, err := none,
        signin_requested := true, price_requested := false } := by
    simp [update, _authorize, hdue, hnotok, huser, hmsg, hrej]
  rw [hred]
  refine ⟨rfl, rfl, ?_⟩
  intro now2 sp2 pp2
  cases hsu : should_update { s with _id_token := none, _username := none } now2 with
  | false => simp [update, hsu]
  | true => simp [update, _authorize, hsu]

/-- Witness for C4 (amended) at the needs-auth state with the rejection
fixture body. -/
theorem C4_amended_rejection_terminal_witness :
    (update exNeedsAuth 0 (HttpJson.ok signinRejectJson)
        HttpJson.invalid).state._username = none ∧
    (update exNeedsAuth 0 (HttpJson.ok signinRejectJson)
        HttpJson.invalid).state._id_token = none ∧
    ∀ (now2 : Int) (sp2 pp2 : HttpJson),
      update (update exNeedsAuth 0 (HttpJson.ok signinRejectJson)
          HttpJson.invalid).state now2 sp2 pp2 =
        { state := (update exNeedsAuth 0 (HttpJson.ok signinRejectJson)
              HttpJson.invalid).state, err := none,
          signin_requested := false, price_requested := false } :=
  C4_amended_rejection_terminal exNeedsAuth 0 "user" HttpJson.invalid
    signinRejectJson (Json.str "Username or password is incorrect.")
    rfl rfl rfl rfl rfl

/-- C8 counterexample: a due refresh that needs authentication, answered
with a structured sign-in body that lacks the `message` key (a malformed
sign-in response, i.e. an AuthRejected outcome per the claim), raises a
`KeyError` to the caller instead of returning normally. -/
theorem C8_counterexample :
    (update exNeedsAuth 0 (HttpJson.ok (Json.obj [])) HttpJson.invalid).err
      = some (PyErr.keyError "message") := rfl

/-- C8 (amended): a sign-in rejection message and a "Token is not valid"
price response are handled internally — the call returns normally with no
error raised.  Any sign-in response on which authentication raises
propagates that same error to the host caller with no price request made:
a caught `KeyError` or `ValueError` (body not JSON, or a JSON object
missing an expected key) clears the stored reading, while a wrong-shape
JSON body raises an uncaught `TypeError` and leaves the reading
untouched. -/
theorem C8_amended_propagation (s s2 : AmberCurrentData) (now now2 : Int)
    (u : String) (price sp2 : HttpJson) (rj msg tok : Json)
    (hdue : should_update s now = true)
    (hnotok : s._id_token = none)
    (huser : s._username = some u)
    (hmsg : jsonGet rj "message" = Except.ok msg)
    (hrej : pyEqStr msg "Authentication successfully." = false)
    (hdue2 : should_update s2 now2 = true)
    (htok : s2._id_token = some tok) :
    (update s now (HttpJson.ok rj) price).err = none ∧
    (update s2 now2 sp2 (HttpJson.ok (Json.str "Token is not valid"))).err = none ∧
    (∀ signin e, (_authorize s signin).err = some e →
        (update s now signin price).err = some e ∧
        (update s now signin price).price_requested = false ∧
        (e ≠ PyErr.typeError → (update s now signin price).state._data = none) ∧
        (e = PyErr.typeError → (update s now signin price).state._data = s._data)) := by
  refine ⟨?_, ?_, ?_⟩
  · simp [update, _authorize, hdue, hnotok, huser, hmsg, hrej]
  · simp [update, hdue2, htok, pyEqStr]
  · intro signin e herr
    have hupd : update s now signin price =
        { state := (_authorize s signin).state, err := some e,
          signin_requested := (_authorize s signin).requested,
          price_requested := false } := by
      simp [update, hdue, hnotok, herr]
    rw [hupd]
    refine ⟨rfl, rfl, ?_, ?_⟩
    · intro hne
      rcases _authorize_outcomes s signin with h0 | ⟨h1, _⟩ | ⟨e2, h2, hne2, hdata2⟩
      · rw [h0] at herr
        exact absurd herr (by simp)
      · rw [h1] at herr
        exact absurd (Option.some.inj herr).symm hne
      · rw [h2] at herr
        have he := Option.some.inj herr
        subst he
        exact hdata2
    · intro he
      subst he
      rcases _authorize_outcomes s signin with h0 | ⟨h1, hdata1⟩ | ⟨e2, h2, hne2, hdata2⟩
      · rw [h0] at herr
        exact absurd herr (by simp)
      · exact hdata1
      · rw [h2] at herr
        exact absurd (Option.some.inj herr) hne2

/-- Witness for C8 (amended) on the rejection fixture body, the stocked
state, and the needs-auth state. -/
theorem C8_amended_propagation_witness :
    (update exNeedsAuth 0 (HttpJson.ok signinRejectJson) HttpJson.invalid).err = none ∧
    (update exStocked 3000 HttpJson.invalid
        (HttpJson.ok (Json.str "Token is not valid"))).err = none ∧
    (∀ signin e, (_authorize exNeedsAuth signin).err = some e →
        (update exNeedsAuth 0 signin HttpJson.invalid).err = some e ∧
        (update exNeedsAuth 0 signin HttpJson.invalid).price_requested = false ∧
        (e ≠ PyErr.typeError →
          (update exNeedsAuth 0 signin HttpJson.invalid).state._data = none) ∧
        (e = PyErr.typeError →
          (update exNeedsAuth 0 signin HttpJson.invalid).state._data
            = exNeedsAuth._data)) :=
  C8_amended_propagation exNeedsAuth exStocked 0 3000 "user" HttpJson.invalid
    HttpJson.invalid signinRejectJson
    (Json.str "Username or password is incorrect.") (Json.str "token")
    rfl rfl rfl rfl rfl rfl rfl

end Amber
